import Mathlib

/-!
Verification development for two integration modules of the frePPLe
repository:

* `contrib/odoo/addons_v9/controllers/frepplexml.py` — the Odoo HTTP
  controller class `XMLController` exposing the `/frepple/xml` route.
* `contrib/django/freppledb/common/__init__.py` — the multi-database
  Django admin classes `MultiDBModelAdmin` and `MultiDBTabularInline`.

The controller is embedded shallowly: external collaborators (base64
decoding, the Odoo session authentication backend, the company
directory, the JWT library, the exporter and the importer) are fields of
an environment record `Env`, and everything the controller itself does
is translated line by line into the function `xml`.  The handler result
is an `Outcome` recording the HTTP response (or the raised werkzeug
error), the log records emitted, and the collaborator calls made.
-/

/-- Splits a list of characters at the first occurrence of `sep`,
dropping the separator. -/
def splitOnceChars (sep : Char) : List Char → Option (List Char × List Char)
  | [] => none
  | c :: cs =>
    if c = sep then some ([], cs)
    else
      match splitOnceChars sep cs with
      | none => none
      | some (a, b) => some (c :: a, b)

/-- Python `s.split(sep, 1)` followed by unpacking into exactly two
variables.  It succeeds only when `sep` occurs in `s`, returning the
part before the first occurrence and the rest; a missing separator makes
the tuple unpacking raise a `ValueError`, modelled by `none`. -/
def pySplitOnce (sep : Char) (s : String) : Option (String × String) :=
  match splitOnceChars sep s.toList with
  | none => none
  | some (a, b) => some (a.asString, b.asString)

/-- Python `s.strip()`: removes leading and trailing whitespace. -/
def pyStrip (s : String) : String :=
  (((s.toList.dropWhile Char.isWhitespace).reverse.dropWhile
      Char.isWhitespace).reverse).asString

/-- Python `s.lower()`. -/
def pyLower (s : String) : String :=
  (s.toList.map Char.toLower).asString

/-- A nonempty run of decimal digits read as a number; `none`
otherwise. -/
def digitsToNat : List Char → Option Nat
  | [] => none
  | cs =>
    if cs.all Char.isDigit then
      some (cs.foldl (fun acc c => 10 * acc + (c.toNat - 48)) 0)
    else none

/-- Python 2 `int(s)` applied to a string: optional surrounding
whitespace, an optional sign, then a nonempty run of decimal digits.
Anything else raises a `ValueError`, modelled by `none`. -/
def pyInt (s : String) : Option Int :=
  match (pyStrip s).toList with
  | [] => none
  | c :: cs =>
    if c = '-' then (digitsToNat cs).map (fun n => -(n : Int))
    else if c = '+' then (digitsToNat cs).map (fun n => (n : Int))
    else (digitsToNat (c :: cs)).map (fun n => (n : Int))

/-- Python truthiness of an optional string (`None` and the empty string
are falsy). -/
def pyTruthyOpt : Option String → Bool
  | none => false
  | some s => s != ""

/-- A record of the Odoo `res.company` model as used by the controller:
only the name and the `webtoken_key` field are read. -/
structure Company where
  name : String
  webtoken_key : String
deriving DecidableEq

/-- The payload of a decoded JWT, as read by the controller:
`decoded.get` of the user key, absent claims giving `None`. -/
structure JwtClaims where
  user : Option String
deriving DecidableEq

/-- The inbound HTTP request as read by the controller: the method, the
value of the Authorization header when present (the werkzeug header
lookup is case-insensitive), and the POST form fields. -/
structure HttpReq where
  method : String
  authHeader : Option String
  form : List (String × String)
deriving DecidableEq

/-- Request keyword arguments (`kwargs` of the route handler). -/
abbrev Args := List (String × String)

/-- The keyword arguments the GET branch passes to `exporter`. -/
structure ExporterArgs where
  database : Option String
  company : Option String
  mode : Int
deriving DecidableEq

/-- A Python value that is either an int or a string, used for the mode
argument of the POST branch, which performs no conversion. -/
inductive ModeVal where
  | int (n : Int)
  | str (s : String)
deriving DecidableEq

/-- The keyword arguments the POST branch passes to `importer`. -/
structure ImporterArgs where
  database : Option String
  company : Company
  mode : ModeVal
deriving DecidableEq

/-- The external collaborators of the controller.  `b64decode` models
the base64 codec (`none` = raises), `sessionAuth` the Odoo
`req.session.authenticate` call, `companies` the `res.company`
directory, `jwtDecode` the `jwt.decode(token, key, algorithms=[HS256])`
call of the PyJWT library (`none` = raises for any reason, including a
bad signature or a malformed token), and `exporterRun` / `importerRun`
the construction-plus-run of the two collaborators (`Except.error d`
models an exception with detail `d`).  `db_monodb` is the configured
single-tenant default database. -/
structure Env where
  db_monodb : Option String
  b64decode : String → Option String
  sessionAuth : Option String → String → String → Bool
  companies : List Company
  jwtDecode : String → String → Option JwtClaims
  exporterRun : ExporterArgs → Except String (List String)
  importerRun : ImporterArgs → Except String String

/-- A werkzeug response: status code, body and extra headers. -/
structure Resp where
  status : Nat
  body : String
  headers : List (String × String)
deriving DecidableEq

/-- The result of the route handler: a returned response, or one of the
two raised werkzeug exceptions (`InternalServerError` renders as a 500
carrying its description, `MethodNotAllowed` as a 405). -/
inductive HandlerResult where
  | resp (r : Resp)
  | internalServerError (description : String)
  | methodNotAllowed (description : String)
deriving DecidableEq

/-- A server-side log record: `logger.warning(msg)` or
`logger.exception(msg)`, the latter also writing the full detail of the
active exception. -/
inductive LogRec where
  | warning (msg : String)
  | exception (msg : String) (detail : String)
deriving DecidableEq

/-- A collaborator invocation made by the handler. -/
inductive CallRec where
  | exporter (args : ExporterArgs)
  | importer (args : ImporterArgs)
deriving DecidableEq

/-- Everything observable about one handler run. -/
structure Outcome where
  result : HandlerResult
  log : List LogRec
  calls : List CallRec
deriving DecidableEq

/-- `XMLController.authenticate`: HTTP basic authentication.  Returns
the authenticated user name (stored in `self.user` by the source) or
the message of the exception raised.  The optional language argument
only sets the session context language and has no further observable
effect on the handler, so it is accepted and ignored here. -/
def authenticate (env : Env) (req : HttpReq) (database : Option String)
    (language : Option String) : Except String String :=
  match req.authHeader with
  | none => Except.error "No authentication header"
  | some hdr =>
    match pySplitOnce ' ' hdr with
    | none => Except.error "need more than 1 value to unpack"
    | some (authmeth, auth) =>
      if pyLower authmeth != "basic" then
        Except.error "Unknown authentication method"
      else
        match env.b64decode (pyStrip auth) with
        | none => Except.error "Incorrect padding"
        | some decoded =>
          match pySplitOnce ':' decoded with
          | none => Except.error "need more than 1 value to unpack"
          | some (user, password) =>
            if !pyTruthyOpt database || user == "" || password == "" then
              Except.error "Missing user, password or database"
            else if !env.sessionAuth database user password then
              Except.error "Odoo authentication failed"
            else
              -- language, if set, is written into the session context
              Except.ok user

/-- Company lookup of the POST branch: `search` with an exact name
filter followed by a browse loop that leaves the last returned record in
the `company` variable.  A missing parameter searches for the name
`None`, which matches no named company record. -/
def findCompany (companies : List Company) (company_name : Option String) :
    Option Company :=
  match company_name with
  | none => none
  | some n => (companies.filter (fun c => c.name == n)).getLast?

/-- The guarded webtoken decode of the POST branch: `jwt.decode` of the
form field with the key of the resolved company, under a bare except
clause that maps every failure — including a missing token, on which
`jwt.decode` raises — to a 401.  The HS256 signature verification lives
in the external `jwtDecode` parameter. -/
def decodeWebtoken (env : Env) (webtoken : Option String) (key : String) :
    Option JwtClaims :=
  match webtoken with
  | none => none
  | some t => env.jwtDecode t key

/-- The mode argument of the GET branch: `int` applied to the parameter,
with the integer 1 as the default.  A supplied value is a string, whose
conversion can raise inside the surrounding try block (`none`). -/
def getModeGET (kwargs : Args) : Option Int :=
  match kwargs.lookup "mode" with
  | none => some 1
  | some s => pyInt s

/-- The mode argument of the POST branch: the raw form value with no
conversion — the Python int 1 when absent, otherwise the raw string. -/
def postMode (form : Args) : ModeVal :=
  match form.lookup "mode" with
  | none => ModeVal.int 1
  | some s => ModeVal.str s

/-- The 401 response returned on any authentication failure. -/
def loginFailureResponse : Resp :=
  { status := 401
    body := "Login with Odoo user name and password"
    headers := [("WWW-Authenticate", "Basic realm=\"odoo\"")] }

/-- Description of the `InternalServerError` raised when the exporter
fails. -/
def exportErrorDescription : String :=
  "Error generating frePPLe XML data: check the Odoo log file for more details"

/-- Description of the `InternalServerError` raised when the importer
fails. -/
def importErrorDescription : String :=
  "Error processing data posted by frePPLe: check the Odoo log file for more details"

/-- Headers of a successful GET (export) response. -/
def xmlSuccessHeaders : List (String × String) :=
  [("Content-Type", "application/xml;charset=utf8"),
   ("Cache-Control", "no-cache, no-store, must-revalidate"),
   ("Pragma", "no-cache"),
   ("Expires", "0")]

/-- Headers of a successful POST (import) response. -/
def plainSuccessHeaders : List (String × String) :=
  [("Content-Type", "text/plain"),
   ("Cache-Control", "no-cache, no-store, must-revalidate"),
   ("Pragma", "no-cache"),
   ("Expires", "0")]

/-- The route handler `XMLController.xml`, translated statement by
statement.  Note that the `db_monodb` fallback computed by the first
two statements is shadowed in both branches: the GET branch re-reads the
raw keyword argument and the POST branch re-reads the form field, so the
fallback value is dead.  Session assignments (`req.session.db`) have no
further observable effect and are noted in comments only. -/
def xml (env : Env) (kwargs : Args) (req : HttpReq) : Outcome :=
  let database := kwargs.lookup "database"
  let _database := if pyTruthyOpt database then database else env.db_monodb
  let language := kwargs.lookup "language"
  if req.method = "GET" then
    -- database = kwargs.get of the raw parameter; req.session.db = database
    let database := kwargs.lookup "database"
    match authenticate env req database language with
    | Except.error e =>
        { result := HandlerResult.resp loginFailureResponse
          log := [LogRec.warning ("Failed login attempt: " ++ e)]
          calls := [] }
    | Except.ok _user =>
        match getModeGET kwargs with
        | none =>
            { result := HandlerResult.internalServerError exportErrorDescription
              log := [LogRec.exception "Error generating frePPLe XML data"
                        "ValueError: invalid literal for int()"]
              calls := [] }
        | some mode =>
            let args : ExporterArgs :=
              { database := database, company := kwargs.lookup "company", mode := mode }
            match env.exporterRun args with
            | Except.ok chunks =>
                { result := HandlerResult.resp
                    { status := 200, body := String.join chunks, headers := xmlSuccessHeaders }
                  log := []
                  calls := [CallRec.exporter args] }
            | Except.error detail =>
                { result := HandlerResult.internalServerError exportErrorDescription
                  log := [LogRec.exception "Error generating frePPLe XML data" detail]
                  calls := [CallRec.exporter args] }
  else if req.method = "POST" then
    -- database = form.get of the form field; req.session.db = database
    let database := req.form.lookup "database"
    match authenticate env req database language with
    | Except.error e =>
        { result := HandlerResult.resp loginFailureResponse
          log := [LogRec.warning ("Failed login attempt " ++ e)]
          calls := [] }
    | Except.ok user =>
        let company_name := req.form.lookup "company"
        match findCompany env.companies company_name with
        | none =>
            { result := HandlerResult.resp
                { status := 401, body := "Invalid company name argument", headers := [] }
              log := [], calls := [] }
        | some company =>
            match decodeWebtoken env (req.form.lookup "webtoken") company.webtoken_key with
            | none =>
                { result := HandlerResult.resp
                    { status := 401, body := "Incorrect or missing webtoken", headers := [] }
                  log := [], calls := [] }
            | some decoded =>
                if some user ≠ decoded.user then
                  { result := HandlerResult.resp
                      { status := 401, body := "Incorrect or missing webtoken", headers := [] }
                    log := [], calls := [] }
                else
                  let args : ImporterArgs :=
                    { database := database, company := company, mode := postMode req.form }
                  match env.importerRun args with
                  | Except.ok res =>
                      { result := HandlerResult.resp
                          { status := 200, body := res, headers := plainSuccessHeaders }
                        log := []
                        calls := [CallRec.importer args] }
                  | Except.error detail =>
                      { result := HandlerResult.internalServerError importErrorDescription
                        log := [LogRec.exception "Error processing data posted by frePPLe" detail]
                        calls := [CallRec.importer args] }
  else
    { result := HandlerResult.methodNotAllowed "Only GET and POST requests are accepted"
      log := [], calls := [] }

/-- The database the handler authenticates against: the raw keyword
argument for GET, the form field for POST. -/
def requestDatabase (kwargs : Args) (req : HttpReq) : Option String :=
  if req.method = "GET" then kwargs.lookup "database" else req.form.lookup "database"

/-- A concrete environment used to evaluate the handler: one configured
database `odoodb`, one company, credentials admin / secret (whose base64
encoding is the string in `b64decode`), a JWT decoder accepting exactly
the token `goodtoken` signed with the key of the demo company, and
collaborators that succeed. -/
def demoEnv : Env :=
  { db_monodb := some "odoodb"
    b64decode := fun s => if s == "YWRtaW46c2VjcmV0" then some "admin:secret" else none
    sessionAuth := fun db u p => db == some "odoodb" && u == "admin" && p == "secret"
    companies := [{ name := "MyCompany", webtoken_key := "sekret" }]
    jwtDecode := fun t k =>
      if t == "goodtoken" && k == "sekret" then some { user := some "admin" } else none
    exporterRun := fun _ => Except.ok ["<plan>", "</plan>"]
    importerRun := fun _ => Except.ok "OK" }

/-- A GET request with a well-formed basic-auth header for admin /
secret and no parameters. -/
def demoGetReq : HttpReq :=
  { method := "GET", authHeader := some "Basic YWRtaW46c2VjcmV0", form := [] }

/-- A GET request whose Authorization header is absent. -/
def noAuthGetReq : HttpReq := { method := "GET", authHeader := none, form := [] }

/-- Form fields of a POST naming an unknown company. -/
def unknownCompanyForm : Args := [("database", "odoodb"), ("company", "Nobody")]

/-- A POST request naming an unknown company, with valid credentials. -/
def unknownCompanyReq : HttpReq :=
  { method := "POST", authHeader := some "Basic YWRtaW46c2VjcmV0", form := unknownCompanyForm }

/-- Form fields of a POST carrying a webtoken the JWT decoder rejects. -/
def badTokenForm : Args :=
  [("database", "odoodb"), ("company", "MyCompany"), ("webtoken", "badtoken")]

/-- A POST request carrying a rejected webtoken, with valid
credentials. -/
def badTokenReq : HttpReq :=
  { method := "POST", authHeader := some "Basic YWRtaW46c2VjcmV0", form := badTokenForm }

/-- Form fields of a fully well-formed POST. -/
def goodPostForm : Args :=
  [("database", "odoodb"), ("company", "MyCompany"), ("webtoken", "goodtoken")]

/-- A fully well-formed POST request. -/
def goodPostReq : HttpReq :=
  { method := "POST", authHeader := some "Basic YWRtaW46c2VjcmV0", form := goodPostForm }

/-- The demo environment with collaborators that raise. -/
def failEnv : Env :=
  { demoEnv with
    exporterRun := fun _ => Except.error "boom"
    importerRun := fun _ => Except.error "crash" }

/-- Form fields of a well-formed POST that also supplies a mode. -/
def modePostForm : Args :=
  [("database", "odoodb"), ("company", "MyCompany"), ("webtoken", "goodtoken"), ("mode", "7")]

/-- A well-formed POST request that also supplies a mode. -/
def modePostReq : HttpReq :=
  { method := "POST", authHeader := some "Basic YWRtaW46c2VjcmV0", form := modePostForm }

/-!
Embedding of the Django multi-database admin classes.  The admin
methods delegate to framework machinery; what the repository code does
is thread the request-selected database (`request.database`) into every
framework call that accepts a `using` argument, and redirect plain
saves and confirmed deletions to a breadcrumb entry kept in the
session.  Each embedded method returns a record of the framework calls
it makes; a `usingDb` field of `none` models a framework call made
without a `using` argument, which Django routes to its default
database alias.
-/

/-- Python indexing `l[i]` with support for negative indices; `none`
models an `IndexError`. -/
def pyIndex {α : Type} (l : List α) (i : Int) : Option α :=
  if 0 ≤ i then l.get? i.toNat
  else if i + l.length < 0 then none
  else l.get? (i + l.length).toNat

/-- Python `%` formatting with a single `%s` hole. -/
def pyPercentS (fmt : String) (arg : String) : String :=
  ((fmt.toList.foldr
      (fun c (acc : List Char × Bool) =>
        if c = '%' && acc.2 then (arg.toList ++ acc.1.tail, false)
        else if c = 's' then (c :: acc.1, true)
        else (c :: acc.1, false))
      ([], false)).1).asString

/-- The slice of the Django request object read by the admin methods:
the selected database, the primary key of the user, the keys present in
the POST data, the keys present in the merged REQUEST data, the URL
parts used for redirects, and the breadcrumb list kept in the session
(`request.session` of the crumbs key), each entry a tuple whose third
field is a URL. -/
structure DjRequest where
  database : String
  userPk : Nat
  postKeys : List String
  requestKeys : List String
  basePath : String
  path : String
  crumbs : List (String × String × String)
deriving DecidableEq

/-- A call `obj.save(using=db)`; `usingDb = none` would model a save
without a `using` argument (the framework default database). -/
structure ObjSaveCall (α : Type) where
  obj : α
  usingDb : Option String
deriving DecidableEq

/-- A Django queryset together with the database alias it is bound to;
`none` is the framework default alias. -/
structure QuerySet where
  model : String
  dbAlias : Option String
deriving DecidableEq

/-- The `.using(db)` queryset method. -/
def QuerySet.usingDb (qs : QuerySet) (db : String) : QuerySet :=
  { qs with dbAlias := some db }

/-- The keyword arguments forwarded by a `formfield_for_foreignkey` or
`formfield_for_manytomany` override to the framework implementation. -/
structure FormfieldCall where
  dbFieldName : String
  usingDb : Option String
deriving DecidableEq

/-- A Django admin `LogEntry` record as constructed by the logging
methods. -/
structure LogEntryRec where
  user_id : Nat
  content_type_id : Nat
  object_id : String
  object_repr : String
  action_flag : Nat
  change_message : Option String
deriving DecidableEq

/-- Django `django.contrib.admin.models.ADDITION`. -/
def ADDITION : Nat := 1

/-- Django `django.contrib.admin.models.CHANGE`. -/
def CHANGE : Nat := 2

/-- Django `django.contrib.admin.models.DELETION`. -/
def DELETION : Nat := 3

/-- `MultiDBModelAdmin.save_model`: saves the object to the database
selected by the request. -/
def MultiDBModelAdmin.save_model {α : Type} (request : DjRequest) (obj : α) :
    ObjSaveCall α :=
  { obj := obj, usingDb := some request.database }

/-- `MultiDBModelAdmin.queryset`: the inherited queryset re-bound with
`.using(request.database)`. -/
def MultiDBModelAdmin.queryset (base : QuerySet) (request : DjRequest) : QuerySet :=
  base.usingDb request.database

/-- `MultiDBModelAdmin.formfield_for_foreignkey`: forwards to the
framework implementation with the extra `using=request.database`. -/
def MultiDBModelAdmin.formfield_for_foreignkey (dbField : String)
    (request : DjRequest) : FormfieldCall :=
  { dbFieldName := dbField, usingDb := some request.database }

/-- `MultiDBModelAdmin.formfield_for_manytomany`: forwards to the
framework implementation with the extra `using=request.database`. -/
def MultiDBModelAdmin.formfield_for_manytomany (dbField : String)
    (request : DjRequest) : FormfieldCall :=
  { dbFieldName := dbField, usingDb := some request.database }

/-- `MultiDBModelAdmin.log_addition`: builds an ADDITION `LogEntry` and
saves it to the database selected by the request.  `contentTypeId`
models the framework lookup of the content type of the object, and
`objectPk` / `objectRepr` the primary key and unicode rendering of the
object. -/
def MultiDBModelAdmin.log_addition (request : DjRequest) (contentTypeId : Nat)
    (objectPk : String) (objectRepr : String) : ObjSaveCall LogEntryRec :=
  { obj :=
      { user_id := request.userPk
        content_type_id := contentTypeId
        object_id := objectPk
        object_repr := objectRepr.take 200
        action_flag := ADDITION
        change_message := none }
    usingDb := some request.database }

/-- `MultiDBModelAdmin.log_change`: builds a CHANGE `LogEntry` carrying
the change message and saves it to the database selected by the
request. -/
def MultiDBModelAdmin.log_change (request : DjRequest) (contentTypeId : Nat)
    (objectPk : String) (objectRepr : String) (message : String) :
    ObjSaveCall LogEntryRec :=
  { obj :=
      { user_id := request.userPk
        content_type_id := contentTypeId
        object_id := objectPk
        object_repr := objectRepr.take 200
        action_flag := CHANGE
        change_message := some message }
    usingDb := some request.database }

/-- `MultiDBModelAdmin.log_deletion`: builds a DELETION `LogEntry` from
the supplied representation and saves it to the database selected by
the request. -/
def MultiDBModelAdmin.log_deletion (request : DjRequest) (contentTypeId : Nat)
    (objectPk : String) (objectRepr : String) : ObjSaveCall LogEntryRec :=
  { obj :=
      { user_id := request.userPk
        content_type_id := contentTypeId
        object_id := objectPk
        object_repr := objectRepr.take 200
        action_flag := DELETION
        change_message := none }
    usingDb := some request.database }

/-- The two database-bound queries issued by
`MultiDBModelAdmin.history_view`: the `LogEntry` action list filtered by
object id, and the existence lookup of the object itself. -/
structure HistoryViewQueries where
  actionListDb : Option String
  actionListObjectId : String
  objectLookupDb : Option String
deriving DecidableEq

/-- `MultiDBModelAdmin.history_view`, reduced to the queries it issues:
the rendering of the template is framework work carrying no database
choice. -/
def MultiDBModelAdmin.history_view (request : DjRequest) (objectId : String) :
    HistoryViewQueries :=
  { actionListDb := some request.database
    actionListObjectId := objectId
    objectLookupDb := some request.database }

/-- A Python error raised by the admin response methods. -/
inductive PyErr where
  | indexError
deriving DecidableEq

/-- The response of `response_add` / `response_change`: a redirect or
the dismiss-popup script page. -/
inductive AdminResponse where
  | redirect (url : String)
  | popupScript (pk : String) (objRepr : String)
deriving DecidableEq

/-- `MultiDBModelAdmin.response_add`: chooses the next page after an
add.  The `message_user` calls only queue a flash message and are not
modelled.  The final branch reads entry `-2` of the session breadcrumb
list and redirects to its third field. -/
def MultiDBModelAdmin.response_add (request : DjRequest) (pkValue : String)
    (objRepr : String) : Except PyErr AdminResponse :=
  let post_url_continue := "../%s/"
  if request.postKeys.contains "_continue" then
    let post_url_continue :=
      if request.postKeys.contains "_popup" then post_url_continue ++ "?_popup=1"
      else post_url_continue
    Except.ok (AdminResponse.redirect (pyPercentS post_url_continue pkValue))
  else if request.postKeys.contains "_popup" then
    Except.ok (AdminResponse.popupScript pkValue objRepr)
  else if request.postKeys.contains "_addanother" then
    Except.ok (AdminResponse.redirect (request.basePath ++ request.path))
  else
    match pyIndex request.crumbs (-2) with
    | none => Except.error PyErr.indexError
    | some c => Except.ok (AdminResponse.redirect c.2.2)

/-- `MultiDBModelAdmin.response_change`: chooses the next page after a
change.  The handling of deferred proxy models only affects the flash
message text and is not modelled.  Note the `_popup` key is only
consulted inside the `_continue` branch (against the merged REQUEST
data), and that a `_saveasnew` key diverts to the newly saved object
before the breadcrumb fallback is reached. -/
def MultiDBModelAdmin.response_change (request : DjRequest) (pkValue : String) :
    Except PyErr AdminResponse :=
  if request.postKeys.contains "_continue" then
    if request.requestKeys.contains "_popup" then
      Except.ok (AdminResponse.redirect (request.basePath ++ request.path ++ "?_popup=1"))
    else
      Except.ok (AdminResponse.redirect (request.basePath ++ request.path))
  else if request.postKeys.contains "_saveasnew" then
    Except.ok (AdminResponse.redirect (pyPercentS "../%s/" pkValue))
  else if request.postKeys.contains "_addanother" then
    Except.ok (AdminResponse.redirect "../add/")
  else
    match pyIndex request.crumbs (-2) with
    | none => Except.error PyErr.indexError
    | some c => Except.ok (AdminResponse.redirect c.2.2)

/-- The framework facts `delete_view` consults: whether the user may
delete, whether the object exists, whether related permissions are
missing, whether protected related objects exist, and whether the POST
data is nonempty (the confirmation submit). -/
structure DeleteViewInput where
  hasDeletePermission : Bool
  objFound : Bool
  permsNeeded : Bool
  protectedObjs : Bool
  postConfirmed : Bool
deriving DecidableEq

/-- The page produced by `delete_view`. -/
inductive DeleteViewResult where
  | permissionDenied
  | http404
  | redirect (url : String)
  | indexError
  | confirmationPage (title : String)
deriving DecidableEq

/-- Everything observable about one `delete_view` run: the page, the
`using` argument passed to `get_deleted_objects` when that call is
reached, and the `LogEntry` save performed on a confirmed deletion. -/
structure DeleteViewOutcome where
  result : DeleteViewResult
  relatedObjectsDb : Option String
  logSave : Option (ObjSaveCall LogEntryRec)
deriving DecidableEq

/-- `MultiDBModelAdmin.delete_view`: permission check, existence check,
resolution of related objects with `using = request.database`, then
either the confirmed-deletion path — `log_deletion`, `delete_model`
(the inherited framework deletion, not overridden here), and a redirect
to the third field of entry `-3` of the session breadcrumb list — or
the confirmation page. -/
def MultiDBModelAdmin.delete_view (request : DjRequest) (inp : DeleteViewInput)
    (contentTypeId : Nat) (objectPk : String) (objRepr : String) :
    DeleteViewOutcome :=
  if !inp.hasDeletePermission then
    { result := DeleteViewResult.permissionDenied, relatedObjectsDb := none, logSave := none }
  else if !inp.objFound then
    { result := DeleteViewResult.http404, relatedObjectsDb := none, logSave := none }
  else
    let usingDb := request.database
    if inp.postConfirmed then
      if inp.permsNeeded then
        { result := DeleteViewResult.permissionDenied
          relatedObjectsDb := some usingDb, logSave := none }
      else
        let logCall := MultiDBModelAdmin.log_deletion request contentTypeId objectPk objRepr
        match pyIndex request.crumbs (-3) with
        | none =>
            { result := DeleteViewResult.indexError
              relatedObjectsDb := some usingDb, logSave := some logCall }
        | some c =>
            { result := DeleteViewResult.redirect c.2.2
              relatedObjectsDb := some usingDb, logSave := some logCall }
    else
      { result := DeleteViewResult.confirmationPage
          (if inp.permsNeeded || inp.protectedObjs then "Cannot delete %(name)s"
           else "Are you sure?")
        relatedObjectsDb := some usingDb, logSave := none }

/-- `MultiDBTabularInline.queryset`: the inherited queryset re-bound
with `.using(request.database)`. -/
def MultiDBTabularInline.queryset (base : QuerySet) (request : DjRequest) : QuerySet :=
  base.usingDb request.database

/-- `MultiDBTabularInline.formfield_for_foreignkey`: forwards with the
extra `using=request.database`. -/
def MultiDBTabularInline.formfield_for_foreignkey (dbField : String)
    (request : DjRequest) : FormfieldCall :=
  { dbFieldName := dbField, usingDb := some request.database }

/-- `MultiDBTabularInline.formfield_for_manytomany`: forwards with the
extra `using=request.database`. -/
def MultiDBTabularInline.formfield_for_manytomany (dbField : String)
    (request : DjRequest) : FormfieldCall :=
  { dbFieldName := dbField, usingDb := some request.database }

/-- A request with only the `_saveasnew` save type in the POST data and
two breadcrumb entries. -/
def saveAsNewReq : DjRequest :=
  { database := "scenario1"
    userPk := 9
    postKeys := ["_saveasnew"]
    requestKeys := ["_saveasnew"]
    basePath := ""
    path := "/admin/item/5/"
    crumbs := [("home", "Home", "/home/"), ("items", "Items", "/items/")] }

/-- A request identical to `saveAsNewReq` but with a plain save (empty
POST key set) and three breadcrumb entries. -/
def plainSaveReq : DjRequest :=
  { database := "scenario1"
    userPk := 9
    postKeys := []
    requestKeys := []
    basePath := ""
    path := "/admin/item/5/"
    crumbs := [("home", "Home", "/home/"), ("items", "Items", "/items/"),
               ("item5", "Item 5", "/items/5/")] }

/-- A plain-save request whose breadcrumb list has a single entry. -/
def shortCrumbsReq : DjRequest :=
  { database := "scenario1"
    userPk := 9
    postKeys := []
    requestKeys := []
    basePath := ""
    path := "/admin/item/5/"
    crumbs := [("home", "Home", "/home/")] }

/-!
Helper lemmas.
-/

/-- A negative index within range resolves to an element. -/
theorem pyIndex_neg_some {α : Type} (l : List α) (i : Int) (hi : i < 0)
    (h : 0 ≤ i + l.length) : ∃ c, pyIndex l i = some c := by
  rw [pyIndex, if_neg (by omega), if_neg (by omega)]
  cases hg : l.get? (i + l.length).toNat with
  | none =>
    rw [List.get?_eq_none] at hg
    omega
  | some c => exact ⟨c, rfl⟩

/-- A negative index past the front of the list raises. -/
theorem pyIndex_neg_none {α : Type} (l : List α) (i : Int) (hi : i < 0)
    (h : i + l.length < 0) : pyIndex l i = none := by
  rw [pyIndex, if_neg (by omega), if_pos h]

/-- If no company in the directory carries the searched name, the
lookup returns nothing. -/
theorem findCompany_eq_none (companies : List Company) (name : Option String)
    (h : ∀ c ∈ companies, name ≠ some c.name) :
    findCompany companies name = none := by
  cases name with
  | none => rfl
  | some n =>
    have hf : companies.filter (fun c => c.name == n) = [] := by
      apply List.filter_eq_nil_iff.mpr
      intro c hc
      simp only [beq_iff_eq]
      intro hcn
      exact h c hc (by rw [hcn])
    simp only [findCompany, hf]
    rfl

/-!
Claim theorems.
-/

/-- C1: the claim says a GET request that omits the database parameter
is processed as if the configured single-tenant default had been
supplied.  The code computes the `db_monodb` fallback but the GET branch
immediately re-reads the raw keyword argument, discarding it: with valid
credentials for the default database `odoodb`, the request without the
parameter is rejected with the 401 login response and the exporter is
never invoked, while the identical request with the parameter spelled
out succeeds with a 200.  The fallback computed by the first statements
of the handler is dead code, so the handler never resolves the default
— the code contradicts its own fallback computation. -/
theorem c1_get_default_database_discarded :
    demoEnv.db_monodb = some "odoodb" ∧
    (xml demoEnv [] demoGetReq).result = HandlerResult.resp loginFailureResponse ∧
    (xml demoEnv [] demoGetReq).calls = [] ∧
    (xml demoEnv [("database", "odoodb")] demoGetReq).result =
      HandlerResult.resp
        { status := 200, body := "<plan></plan>", headers := xmlSuccessHeaders } := by
  refine ⟨rfl, ?_, ?_, ?_⟩ <;> rfl

/-- C2: whenever `authenticate` raises — header absent, method not
basic, malformed base64 or credential string, or credentials the target
database rejects — both the GET and the POST branch return 401 with the
login body and the basic challenge header, and no collaborator is
invoked.  Each condition of the claim is an error branch of
`authenticate`, so the single hypothesis covers them all. -/
theorem c2_auth_failure_returns_401_challenge (env : Env) (kwargs : Args)
    (req : HttpReq) (e : String)
    (hm : req.method = "GET" ∨ req.method = "POST")
    (ha : authenticate env req (requestDatabase kwargs req)
        (kwargs.lookup "language") = Except.error e) :
    (xml env kwargs req).result = HandlerResult.resp loginFailureResponse ∧
    (xml env kwargs req).calls = [] := by
  rcases hm with h | h
  · rw [requestDatabase, if_pos h] at ha
    unfold xml
    simp [h, ha]
  · have hne : req.method ≠ "GET" := by rw [h]; decide
    rw [requestDatabase, if_neg hne] at ha
    unfold xml
    simp [h, ha]

/-- C2 witness: a GET request with no Authorization header. -/
theorem c2_auth_failure_witness :
    (xml demoEnv [] noAuthGetReq).result = HandlerResult.resp loginFailureResponse ∧
    (xml demoEnv [] noAuthGetReq).calls = [] :=
  c2_auth_failure_returns_401_challenge demoEnv [] noAuthGetReq
    "No authentication header" (Or.inl rfl) rfl

/-- C3: an authenticated POST whose company form value matches no
company by exact name (a missing field gives `None`, which matches
nothing) returns 401 with the invalid-company body, and the importer is
not invoked.  The environment, the form and in particular the webtoken
field and the JWT decoder are universally quantified with no hypothesis
on them: the outcome is reached before any webtoken verification. -/
theorem c3_unknown_company_401 (env : Env) (kwargs : Args) (req : HttpReq)
    (u : String)
    (hm : req.method = "POST")
    (ha : authenticate env req (req.form.lookup "database")
        (kwargs.lookup "language") = Except.ok u)
    (hc : ∀ c ∈ env.companies, req.form.lookup "company" ≠ some c.name) :
    (xml env kwargs req).result =
      HandlerResult.resp
        { status := 401, body := "Invalid company name argument", headers := [] } ∧
    (xml env kwargs req).calls = [] := by
  have hfc := findCompany_eq_none env.companies (req.form.lookup "company") hc
  unfold xml
  simp [hm, ha, hfc]

/-- C3 witness: a POST naming an unknown company with valid
credentials. -/
theorem c3_unknown_company_witness :
    (xml demoEnv unknownCompanyForm unknownCompanyReq).result =
      HandlerResult.resp
        { status := 401, body := "Invalid company name argument", headers := [] } ∧
    (xml demoEnv unknownCompanyForm unknownCompanyReq).calls = [] :=
  c3_unknown_company_401 demoEnv unknownCompanyForm unknownCompanyReq "admin"
    rfl rfl (by decide)

/-- C4: on an authenticated POST with a resolved company, the webtoken
is decoded with the webtoken key of that company (the HS256 restriction
lives in the external decoder); if the decode fails for any reason —
including a missing token — or the decoded user claim differs from the
authenticated user, the response is 401 with the webtoken body and the
importer is not invoked. -/
theorem c4_webtoken_failure_401 (env : Env) (kwargs : Args) (req : HttpReq)
    (u : String) (company : Company)
    (hm : req.method = "POST")
    (ha : authenticate env req (req.form.lookup "database")
        (kwargs.lookup "language") = Except.ok u)
    (hc : findCompany env.companies (req.form.lookup "company") = some company)
    (hw : decodeWebtoken env (req.form.lookup "webtoken") company.webtoken_key = none ∨
      ∃ d, decodeWebtoken env (req.form.lookup "webtoken") company.webtoken_key = some d ∧
        d.user ≠ some u) :
    (xml env kwargs req).result =
      HandlerResult.resp
        { status := 401, body := "Incorrect or missing webtoken", headers := [] } ∧
    (xml env kwargs req).calls = [] := by
  unfold xml
  rcases hw with hw | ⟨d, hd, hdu⟩
  · simp [hm, ha, hc, hw]
  · have hne : some u ≠ d.user := fun hh => hdu hh.symm
    simp [hm, ha, hc, hd, hne]

/-- C4 witness: a POST carrying a webtoken the decoder rejects. -/
theorem c4_webtoken_failure_witness :
    (xml demoEnv badTokenForm badTokenReq).result =
      HandlerResult.resp
        { status := 401, body := "Incorrect or missing webtoken", headers := [] } ∧
    (xml demoEnv badTokenForm badTokenReq).calls = [] :=
  c4_webtoken_failure_401 demoEnv badTokenForm badTokenReq "admin"
    { name := "MyCompany", webtoken_key := "sekret" } rfl rfl rfl (Or.inl rfl)

/-- C5: a GET with valid credentials whose exporter run completes
returns 200 with content type application/xml;charset=utf8, the
cache-disabling headers, and a body equal to the in-order concatenation
of the produced chunks. -/
theorem c5_get_export_success (env : Env) (kwargs : Args) (req : HttpReq)
    (u : String) (m : Int) (chunks : List String)
    (hm : req.method = "GET")
    (ha : authenticate env req (kwargs.lookup "database")
        (kwargs.lookup "language") = Except.ok u)
    (hmode : getModeGET kwargs = some m)
    (hx : env.exporterRun
        { database := kwargs.lookup "database", company := kwargs.lookup "company",
          mode := m } = Except.ok chunks) :
    (xml env kwargs req).result =
      HandlerResult.resp
        { status := 200, body := String.join chunks, headers := xmlSuccessHeaders } := by
  unfold xml
  simp [hm, ha, hmode, hx]

/-- C5 witness: the demo GET with the database spelled out. -/
theorem c5_get_export_success_witness :
    (xml demoEnv [("database", "odoodb")] demoGetReq).result =
      HandlerResult.resp
        { status := 200, body := String.join ["<plan>", "</plan>"],
          headers := xmlSuccessHeaders } :=
  c5_get_export_success demoEnv [("database", "odoodb")] demoGetReq "admin" 1
    ["<plan>", "</plan>"] rfl rfl rfl rfl

/-- C6: a POST with valid credentials, a resolved company, a decoded
webtoken whose user claim equals the authenticated user, and a
completing importer run returns 200 with content type text/plain, the
cache-disabling headers, and the importer result as body. -/
theorem c6_post_import_success (env : Env) (kwargs : Args) (req : HttpReq)
    (u : String) (company : Company) (d : JwtClaims) (res : String)
    (hm : req.method = "POST")
    (ha : authenticate env req (req.form.lookup "database")
        (kwargs.lookup "language") = Except.ok u)
    (hc : findCompany env.companies (req.form.lookup "company") = some company)
    (hd : decodeWebtoken env (req.form.lookup "webtoken") company.webtoken_key = some d)
    (hu : d.user = some u)
    (hi : env.importerRun
        { database := req.form.lookup "database", company := company,
          mode := postMode req.form } = Except.ok res) :
    (xml env kwargs req).result =
      HandlerResult.resp { status := 200, body := res, headers := plainSuccessHeaders } := by
  unfold xml
  simp [hm, ha, hc, hd, hu, hi]

/-- C6 witness: the fully well-formed demo POST. -/
theorem c6_post_import_success_witness :
    (xml demoEnv goodPostForm goodPostReq).result =
      HandlerResult.resp { status := 200, body := "OK", headers := plainSuccessHeaders } :=
  c6_post_import_success demoEnv goodPostForm goodPostReq "admin"
    { name := "MyCompany", webtoken_key := "sekret" } { user := some "admin" } "OK"
    rfl rfl rfl rfl rfl rfl

/-- C7: when the exporter (GET) or the importer (POST) raises, the
handler raises `InternalServerError` with a fixed operator-facing
description — the same constant for every exception detail, so no
detail, path or trace can reach the client — while the log receives an
exception record carrying the full detail. -/
theorem c7_collaborator_failure_opaque_500 :
    (∀ (env : Env) (kwargs : Args) (req : HttpReq) (u : String) (m : Int)
        (detail : String),
      req.method = "GET" →
      authenticate env req (kwargs.lookup "database")
          (kwargs.lookup "language") = Except.ok u →
      getModeGET kwargs = some m →
      env.exporterRun
          { database := kwargs.lookup "database", company := kwargs.lookup "company",
            mode := m } = Except.error detail →
      (xml env kwargs req).result =
        HandlerResult.internalServerError exportErrorDescription ∧
      (xml env kwargs req).log =
        [LogRec.exception "Error generating frePPLe XML data" detail]) ∧
    (∀ (env : Env) (kwargs : Args) (req : HttpReq) (u : String) (company : Company)
        (d : JwtClaims) (detail : String),
      req.method = "POST" →
      authenticate env req (req.form.lookup "database")
          (kwargs.lookup "language") = Except.ok u →
      findCompany env.companies (req.form.lookup "company") = some company →
      decodeWebtoken env (req.form.lookup "webtoken") company.webtoken_key = some d →
      d.user = some u →
      env.importerRun
          { database := req.form.lookup "database", company := company,
            mode := postMode req.form } = Except.error detail →
      (xml env kwargs req).result =
        HandlerResult.internalServerError importErrorDescription ∧
      (xml env kwargs req).log =
        [LogRec.exception "Error processing data posted by frePPLe" detail]) := by
  constructor
  · intro env kwargs req u m detail hm ha hmode hx
    unfold xml
    simp [hm, ha, hmode, hx]
  · intro env kwargs req u company d detail hm ha hc hd hu hi
    unfold xml
    simp [hm, ha, hc, hd, hu, hi]

/-- C7 witness: the demo GET and POST against collaborators that
raise. -/
theorem c7_collaborator_failure_witness :
    ((xml failEnv [("database", "odoodb")] demoGetReq).result =
        HandlerResult.internalServerError exportErrorDescription ∧
      (xml failEnv [("database", "odoodb")] demoGetReq).log =
        [LogRec.exception "Error generating frePPLe XML data" "boom"]) ∧
    ((xml failEnv goodPostForm goodPostReq).result =
        HandlerResult.internalServerError importErrorDescription ∧
      (xml failEnv goodPostForm goodPostReq).log =
        [LogRec.exception "Error processing data posted by frePPLe" "crash"]) :=
  ⟨c7_collaborator_failure_opaque_500.1 failEnv [("database", "odoodb")] demoGetReq
      "admin" 1 "boom" rfl rfl rfl rfl,
    c7_collaborator_failure_opaque_500.2 failEnv goodPostForm goodPostReq "admin"
      { name := "MyCompany", webtoken_key := "sekret" } { user := some "admin" }
      "crash" rfl rfl rfl rfl rfl rfl⟩

/-- C8 counterexample: the claim says the mode passed to the importer is
an integer, the integer value of the supplied parameter.  On a POST
supplying mode 7 the importer receives the raw form string — the POST
branch performs no `int` conversion — so the passed value is the Python
string "7", not the integer 7. -/
theorem c8_post_mode_counterexample :
    (xml demoEnv modePostForm modePostReq).calls =
      [CallRec.importer
        { database := some "odoodb"
          company := { name := "MyCompany", webtoken_key := "sekret" }
          mode := ModeVal.str "7" }] ∧
    ModeVal.str "7" ≠ ModeVal.int 7 :=
  ⟨rfl, by decide⟩

/-- C8 as amended: on GET the mode passed to the exporter is the
integer 1 when the parameter is absent and otherwise the `int`
conversion of the supplied string; on POST the mode passed to the
importer is the integer 1 when the form field is absent and otherwise
the raw supplied string, with no conversion. -/
theorem c8_mode_amended :
    (∀ (env : Env) (kwargs : Args) (req : HttpReq) (u : String) (m : Int),
      req.method = "GET" →
      authenticate env req (kwargs.lookup "database")
          (kwargs.lookup "language") = Except.ok u →
      getModeGET kwargs = some m →
      (xml env kwargs req).calls =
        [CallRec.exporter
          { database := kwargs.lookup "database", company := kwargs.lookup "company",
            mode := m }] ∧
      (kwargs.lookup "mode" = none → m = 1) ∧
      (∀ s, kwargs.lookup "mode" = some s → pyInt s = some m)) ∧
    (∀ (env : Env) (kwargs : Args) (req : HttpReq) (u : String) (company : Company)
        (d : JwtClaims),
      req.method = "POST" →
      authenticate env req (req.form.lookup "database")
          (kwargs.lookup "language") = Except.ok u →
      findCompany env.companies (req.form.lookup "company") = some company →
      decodeWebtoken env (req.form.lookup "webtoken") company.webtoken_key = some d →
      d.user = some u →
      (xml env kwargs req).calls =
        [CallRec.importer
          { database := req.form.lookup "database", company := company,
            mode := postMode req.form }] ∧
      (req.form.lookup "mode" = none → postMode req.form = ModeVal.int 1) ∧
      (∀ s, req.form.lookup "mode" = some s → postMode req.form = ModeVal.str s)) := by
  constructor
  · intro env kwargs req u m hm ha hmode
    refine ⟨?_, ?_, ?_⟩
    · unfold xml
      cases hx : env.exporterRun
          { database := kwargs.lookup "database", company := kwargs.lookup "company",
            mode := m } <;>
        simp [hm, ha, hmode, hx]
    · intro h0
      simp [getModeGET, h0] at hmode
      omega
    · intro s hs
      simp [getModeGET, hs] at hmode
      exact hmode
  · intro env kwargs req u company d hm ha hc hd hu
    refine ⟨?_, ?_, ?_⟩
    · unfold xml
      cases hi : env.importerRun
          { database := req.form.lookup "database", company := company,
            mode := postMode req.form } <;>
        simp [hm, ha, hc, hd, hu, hi]
    · intro h0
      simp [postMode, h0]
    · intro s hs
      simp [postMode, hs]

/-- C8 amended witness: a GET supplying mode 3 reaches the exporter
with the integer 3; the demo POST supplying mode 7 reaches the importer
with the string value. -/
theorem c8_mode_amended_witness :
    ((xml demoEnv [("database", "odoodb"), ("mode", "3")] demoGetReq).calls =
        [CallRec.exporter { database := some "odoodb", company := none, mode := 3 }] ∧
      (([("database", "odoodb"), ("mode", "3")] : Args).lookup "mode" = none →
        (3 : Int) = 1) ∧
      (∀ s, ([("database", "odoodb"), ("mode", "3")] : Args).lookup "mode" = some s →
        pyInt s = some 3)) ∧
    ((xml demoEnv modePostForm modePostReq).calls =
        [CallRec.importer
          { database := some "odoodb"
            company := { name := "MyCompany", webtoken_key := "sekret" }
            mode := postMode modePostForm }] ∧
      (modePostForm.lookup "mode" = none → postMode modePostForm = ModeVal.int 1) ∧
      (∀ s, modePostForm.lookup "mode" = some s →
        postMode modePostForm = ModeVal.str s)) :=
  ⟨c8_mode_amended.1 demoEnv [("database", "odoodb"), ("mode", "3")] demoGetReq
      "admin" 3 rfl rfl rfl,
    c8_mode_amended.2 demoEnv modePostForm modePostReq "admin"
      { name := "MyCompany", webtoken_key := "sekret" } { user := some "admin" }
      rfl rfl rfl rfl rfl⟩

/-- C9: every database-bound framework call of the multi-database admin
classes — saving a model, binding the queryset, building the two kinds
of relation form fields, writing the three kinds of audit-log entries,
the two queries of the history view, and the related-object resolution
of the delete view (once its permission and existence gates pass) —
carries `using = request.database`.  A `usingDb` of `none` would model a
call routed to the framework default alias; every call here carries
`some request.database` instead. -/
theorem c9_admin_ops_use_request_database {α : Type} (request : DjRequest)
    (obj : α) (base : QuerySet) (dbField : String) (contentTypeId : Nat)
    (objectPk : String) (objRepr : String) (message : String)
    (inp : DeleteViewInput) (objectId : String) :
    (MultiDBModelAdmin.save_model request obj).usingDb = some request.database ∧
    (MultiDBModelAdmin.queryset base request).dbAlias = some request.database ∧
    (MultiDBModelAdmin.formfield_for_foreignkey dbField request).usingDb =
      some request.database ∧
    (MultiDBModelAdmin.formfield_for_manytomany dbField request).usingDb =
      some request.database ∧
    (MultiDBModelAdmin.log_addition request contentTypeId objectPk objRepr).usingDb =
      some request.database ∧
    (MultiDBModelAdmin.log_change request contentTypeId objectPk objRepr message).usingDb =
      some request.database ∧
    (MultiDBModelAdmin.log_deletion request contentTypeId objectPk objRepr).usingDb =
      some request.database ∧
    (MultiDBModelAdmin.history_view request objectId).actionListDb =
      some request.database ∧
    (MultiDBModelAdmin.history_view request objectId).objectLookupDb =
      some request.database ∧
    (MultiDBModelAdmin.delete_view request
        { inp with hasDeletePermission := true, objFound := true }
        contentTypeId objectPk objRepr).relatedObjectsDb = some request.database ∧
    (MultiDBTabularInline.queryset base request).dbAlias = some request.database ∧
    (MultiDBTabularInline.formfield_for_foreignkey dbField request).usingDb =
      some request.database ∧
    (MultiDBTabularInline.formfield_for_manytomany dbField request).usingDb =
      some request.database := by
  refine ⟨rfl, rfl, rfl, rfl, rfl, rfl, rfl, rfl, rfl, ?_, rfl, rfl, rfl⟩
  rcases inp with ⟨hp, ho, pn, po, pc⟩
  unfold MultiDBModelAdmin.delete_view
  cases pc <;> cases pn <;>
    first
      | rfl
      | (cases hidx : pyIndex request.crumbs (-3) <;> simp [hidx])

/-- C10 counterexample: the claim calls a POST plain when it carries
none of the continue, popup and addanother keys, and asserts such a
`response_change` redirects to the breadcrumb URL.  A POST carrying
only the save-as-new key is plain in that sense, yet `response_change`
redirects to the newly saved object instead of the breadcrumb entry
(here /home/). -/
theorem c10_plain_save_counterexample :
    saveAsNewReq.postKeys = ["_saveasnew"] ∧
    pyIndex saveAsNewReq.crumbs (-2) = some ("home", "Home", "/home/") ∧
    MultiDBModelAdmin.response_change saveAsNewReq "5" =
      Except.ok (AdminResponse.redirect "../5/") ∧
    ("../5/" : String) ≠ "/home/" :=
  ⟨rfl, rfl, rfl, by decide⟩

/-- C10 as amended: for `response_add` a plain save is one with none of
the continue, popup and addanother keys; for `response_change` the
save-as-new key must also be absent (the popup key alone does not
divert it).  Such saves redirect to the third field of entry `-2` of
the session breadcrumb list, and a confirmed deletion redirects to the
third field of entry `-3`; a breadcrumb list shorter than 2
(respectively 3) entries raises an IndexError instead. -/
theorem c10_crumb_redirects_amended :
    (∀ (request : DjRequest) (pk objRepr : String),
      request.postKeys.contains "_continue" = false →
      request.postKeys.contains "_popup" = false →
      request.postKeys.contains "_addanother" = false →
      (2 ≤ request.crumbs.length →
        ∃ c, pyIndex request.crumbs (-2) = some c ∧
          MultiDBModelAdmin.response_add request pk objRepr =
            Except.ok (AdminResponse.redirect c.2.2)) ∧
      (request.crumbs.length < 2 →
        MultiDBModelAdmin.response_add request pk objRepr =
          Except.error PyErr.indexError)) ∧
    (∀ (request : DjRequest) (pk : String),
      request.postKeys.contains "_continue" = false →
      request.postKeys.contains "_saveasnew" = false →
      request.postKeys.contains "_addanother" = false →
      (2 ≤ request.crumbs.length →
        ∃ c, pyIndex request.crumbs (-2) = some c ∧
          MultiDBModelAdmin.response_change request pk =
            Except.ok (AdminResponse.redirect c.2.2)) ∧
      (request.crumbs.length < 2 →
        MultiDBModelAdmin.response_change request pk =
          Except.error PyErr.indexError)) ∧
    (∀ (request : DjRequest) (inp : DeleteViewInput) (contentTypeId : Nat)
        (pk objRepr : String),
      (3 ≤ request.crumbs.length →
        ∃ c, pyIndex request.crumbs (-3) = some c ∧
          (MultiDBModelAdmin.delete_view request
              { inp with
                  hasDeletePermission := true
                  objFound := true
                  permsNeeded := false
                  postConfirmed := true }
              contentTypeId pk objRepr).result = DeleteViewResult.redirect c.2.2) ∧
      (request.crumbs.length < 3 →
        (MultiDBModelAdmin.delete_view request
            { inp with
                hasDeletePermission := true
                objFound := true
                permsNeeded := false
                postConfirmed := true }
            contentTypeId pk objRepr).result = DeleteViewResult.indexError)) := by
  refine ⟨?_, ?_, ?_⟩
  · intro request pk objRepr h1 h2 h3
    have h1m : "_continue" ∉ request.postKeys := by simpa using h1
    have h2m : "_popup" ∉ request.postKeys := by simpa using h2
    have h3m : "_addanother" ∉ request.postKeys := by simpa using h3
    constructor
    · intro hlen
      obtain ⟨c, hc⟩ := pyIndex_neg_some request.crumbs (-2) (by omega) (by omega)
      refine ⟨c, hc, ?_⟩
      unfold MultiDBModelAdmin.response_add
      simp [h1m, h2m, h3m, hc]
    · intro hlen
      have hc := pyIndex_neg_none request.crumbs (-2) (by omega) (by omega)
      unfold MultiDBModelAdmin.response_add
      simp [h1m, h2m, h3m, hc]
  · intro request pk h1 h2 h3
    have h1m : "_continue" ∉ request.postKeys := by simpa using h1
    have h2m : "_saveasnew" ∉ request.postKeys := by simpa using h2
    have h3m : "_addanother" ∉ request.postKeys := by simpa using h3
    constructor
    · intro hlen
      obtain ⟨c, hc⟩ := pyIndex_neg_some request.crumbs (-2) (by omega) (by omega)
      refine ⟨c, hc, ?_⟩
      unfold MultiDBModelAdmin.response_change
      simp [h1m, h2m, h3m, hc]
    · intro hlen
      have hc := pyIndex_neg_none request.crumbs (-2) (by omega) (by omega)
      unfold MultiDBModelAdmin.response_change
      simp [h1m, h2m, h3m, hc]
  · intro request inp contentTypeId pk objRepr
    rcases inp with ⟨hp, ho, pn, po, pc⟩
    constructor
    · intro hlen
      obtain ⟨c, hc⟩ := pyIndex_neg_some request.crumbs (-3) (by omega) (by omega)
      refine ⟨c, hc, ?_⟩
      unfold MultiDBModelAdmin.delete_view
      simp [hc]
    · intro hlen
      have hc := pyIndex_neg_none request.crumbs (-3) (by omega) (by omega)
      unfold MultiDBModelAdmin.delete_view
      simp [hc]

/-- C10 amended witness: a plain save over a three-entry breadcrumb list
redirects add and change to /items/ and a confirmed deletion to /home/,
while a plain add over a single-entry list raises. -/
theorem c10_crumb_redirects_witness :
    MultiDBModelAdmin.response_add plainSaveReq "5" "item five" =
      Except.ok (AdminResponse.redirect "/items/") ∧
    MultiDBModelAdmin.response_change plainSaveReq "5" =
      Except.ok (AdminResponse.redirect "/items/") ∧
    (MultiDBModelAdmin.delete_view plainSaveReq
        { hasDeletePermission := true, objFound := true, permsNeeded := false,
          protectedObjs := false, postConfirmed := true } 7 "5" "item five").result =
      DeleteViewResult.redirect "/home/" ∧
    MultiDBModelAdmin.response_add shortCrumbsReq "5" "item five" =
      Except.error PyErr.indexError := by
  refine ⟨?_, ?_, ?_, ?_⟩
  · obtain ⟨c, hpi, hresp⟩ :=
      (c10_crumb_redirects_amended.1 plainSaveReq "5" "item five" rfl rfl rfl).1
        (by decide)
    have h0 : pyIndex plainSaveReq.crumbs (-2) = some ("items", "Items", "/items/") := rfl
    rw [h0] at hpi
    rw [(Option.some.inj hpi).symm] at hresp
    exact hresp
  · obtain ⟨c, hpi, hresp⟩ :=
      (c10_crumb_redirects_amended.2.1 plainSaveReq "5" rfl rfl rfl).1 (by decide)
    have h0 : pyIndex plainSaveReq.crumbs (-2) = some ("items", "Items", "/items/") := rfl
    rw [h0] at hpi
    rw [(Option.some.inj hpi).symm] at hresp
    exact hresp
  · obtain ⟨c, hpi, hresp⟩ :=
      (c10_crumb_redirects_amended.2.2 plainSaveReq
        { hasDeletePermission := true, objFound := true, permsNeeded := false,
          protectedObjs := false, postConfirmed := true } 7 "5" "item five").1
        (by decide)
    have h0 : pyIndex plainSaveReq.crumbs (-3) = some ("home", "Home", "/home/") := rfl
    rw [h0] at hpi
    rw [(Option.some.inj hpi).symm] at hresp
    exact hresp
  · exact (c10_crumb_redirects_amended.1 shortCrumbsReq "5" "item five" rfl rfl rfl).2
      (by decide)
